import Mathlib

/-!
# Verification of the two-stage Freepik generation pipeline

Shallow embedding of `backend/freepik_gemini.py` and the relevant parts of
`backend/app.py`.  HTTP traffic is modelled by passing the responses the remote
endpoints would produce as explicit arguments; wall-clock time is modelled as a
rational number that advances by `poll_interval` at each `time.sleep` call
(HTTP requests themselves are instantaneous in the model).  Python exceptions
are modelled as values carrying the exception class name and message; the
filesystem is an explicit record of directories and files, with paths as lists
of components.
-/

/-- A Python exception value: the class name and the message string. -/
structure PyExn where
  cls : String
  msg : String
deriving DecidableEq

/-- `raise FreepikGeminiError(msg)` builds this exception value
(`freepik_gemini.py`, line 11). -/
def FreepikGeminiError (msg : String) : PyExn :=
  ⟨"FreepikGeminiError", msg⟩

/-- The `data` object of a status/submission JSON response, projected onto the
three fields the code reads.  `none` models a missing or `null` field. -/
structure RespData where
  task_id : Option String := none
  status : Option String := none
  generated : Option (List String) := none
deriving DecidableEq

/-- An HTTP response from a submission or status endpoint: status code, raw
body text, and the parsed `data` object (`resp.json().get("data", \x7b\x7d)`). -/
structure HttpResp where
  status_code : Nat
  text : String
  data : RespData
deriving DecidableEq

/-- Python `str()` of an `Optional[str]`: `None` prints as `None`. -/
def pyStrOfOpt : Option String → String
  | none => "None"
  | some s => s

/-- Python `repr` of a string (single-quoted; escaping of quotes inside the
string is not modelled). -/
def pyReprStr (s : String) : String :=
  "\x27" ++ s ++ "\x27"

/-- Python `repr` of a list of strings. -/
def pyReprStrList (l : List String) : String :=
  "[" ++ String.intercalate (", ") (l.map pyReprStr) ++ "]"

/-- Python `repr` of the modelled `data` dict: the keys present, rendered in
the fixed order `task_id`, `status`, `generated`. -/
def reprRespData (d : RespData) : String :=
  "\x7b" ++ String.intercalate (", ")
    ((match d.task_id with
      | none => []
      | some s => ["\x27task_id\x27: " ++ pyReprStr s]) ++
     (match d.status with
      | none => []
      | some s => ["\x27status\x27: " ++ pyReprStr s]) ++
     (match d.generated with
      | none => []
      | some l => ["\x27generated\x27: " ++ pyReprStrList l])) ++ "\x7d"

/-- Message of the error raised when image-task creation gets a non-200
response (`freepik_gemini.py`, lines 33-35). -/
def createGeminiErrMsg (status_code : Nat) (text : String) : String :=
  "Error creating Gemini task: " ++ Nat.repr status_code ++ " " ++ text

/-- Message of the error raised when the image-task creation response lacks a
`task_id` (`freepik_gemini.py`, line 40). -/
def missingTaskIdMsg (text : String) : String :=
  "Missing task_id in response: " ++ text

/-- Message of the error raised when video-task creation gets a non-200
response (`freepik_gemini.py`, line 112). -/
def createVideoErrMsg (status_code : Nat) (text : String) : String :=
  "Error creating video task: " ++ Nat.repr status_code ++ " " ++ text

/-- Message of the error raised when the video-task creation response lacks a
`task_id` (`freepik_gemini.py`, line 117). -/
def missingVideoTaskIdMsg (text : String) : String :=
  "Missing task_id in video response: " ++ text

/-- Message of the error raised on a non-200 image-poll response
(`freepik_gemini.py`, lines 57-59). -/
def geminiPollErrMsg (status_code : Nat) (text : String) : String :=
  "Error getting Gemini task status: " ++ Nat.repr status_code ++ " " ++ text

/-- Message of the image-poll timeout error: carries the task id, the last
observed `status` and the repr of the full last `data` payload
(`freepik_gemini.py`, lines 69-71). -/
def geminiTimeoutMsg (task_id : String) (status : Option String) (data : RespData) : String :=
  "Timeout waiting for task " ++ task_id ++ ", last status=" ++ pyStrOfOpt status ++
    ", data=" ++ reprRespData data

/-- Message of the error raised on a non-200 video-poll response
(`freepik_gemini.py`, line 134). -/
def videoPollErrMsg (status_code : Nat) (text : String) : String :=
  "Error polling video task: " ++ Nat.repr status_code ++ " " ++ text

/-- Message of the video-poll timeout error: carries the task id and the last
observed `status` only (`freepik_gemini.py`, line 144). -/
def videoTimeoutMsg (task_id : String) (status : Option String) : String :=
  "Timeout waiting for video " ++ task_id ++ ", last status=" ++ pyStrOfOpt status

/-- `_create_gemini_task` (`freepik_gemini.py`, lines 17-42) applied to the
response the endpoint returns.  Python's `if not task_id` treats both a missing
field and an empty string as absent. -/
def _create_gemini_task (resp : HttpResp) : Except PyExn String :=
  if resp.status_code ≠ 200 then
    .error (FreepikGeminiError (createGeminiErrMsg resp.status_code resp.text))
  else
    let task_id := resp.data.task_id.getD ""
    if task_id = "" then
      .error (FreepikGeminiError (missingTaskIdMsg resp.text))
    else
      .ok task_id

/-- `_create_video_task` (`freepik_gemini.py`, lines 94-119) applied to the
response the endpoint returns. -/
def _create_video_task (resp : HttpResp) : Except PyExn String :=
  if resp.status_code ≠ 200 then
    .error (FreepikGeminiError (createVideoErrMsg resp.status_code resp.text))
  else
    let task_id := resp.data.task_id.getD ""
    if task_id = "" then
      .error (FreepikGeminiError (missingVideoTaskIdMsg resp.text))
    else
      .ok task_id

/-- Outcome of a polling loop: success or raised exception, each recording the
elapsed time (time units since `start`) at which the loop ended, or
`noResponse` when the modelled response sequence was exhausted before the loop
finished (a model artefact: the real endpoint always answers). -/
inductive PollOutcome (α : Type) where
  | success (out : α) (elapsed : ℚ)
  | failure (e : PyExn) (elapsed : ℚ)
  | noResponse
deriving DecidableEq

/-- One iteration per supplied response of the `while True:` loop of
`_wait_for_gemini_task` (`freepik_gemini.py`, lines 54-73).  `elapsed` is
`time.time() - start`; `data.get("generated") or []` is `generated.getD []`;
the success test precedes the timeout test, and the timeout test is strict
(`>`).  `time.sleep(poll_interval)` advances `elapsed`. -/
def waitGeminiAux (task_id : String) (timeout poll_interval : ℚ) :
    ℚ → List HttpResp → PollOutcome (List String)
  | _, [] => .noResponse
  | elapsed, r :: rest =>
    if r.status_code ≠ 200 then
      .failure (FreepikGeminiError (geminiPollErrMsg r.status_code r.text)) elapsed
    else
      match r.data.generated.getD [] with
      | g :: gs => .success (g :: gs) elapsed
      | [] =>
        if elapsed > timeout then
          .failure (FreepikGeminiError (geminiTimeoutMsg task_id r.data.status r.data)) elapsed
        else
          waitGeminiAux task_id timeout poll_interval (elapsed + poll_interval) rest

/-- `_wait_for_gemini_task` (`freepik_gemini.py`, lines 45-73): poll from
elapsed time `0` through the given sequence of status responses. -/
def _wait_for_gemini_task (task_id : String) (timeout poll_interval : ℚ)
    (resps : List HttpResp) : PollOutcome (List String) :=
  waitGeminiAux task_id timeout poll_interval 0 resps

/-- One iteration per supplied response of the `while True:` loop of
`_wait_for_video_task` (`freepik_gemini.py`, lines 131-146).  Identical
structure to the image loop, but returns `generated[0]` and its timeout
message omits the payload. -/
def waitVideoAux (task_id : String) (timeout poll_interval : ℚ) :
    ℚ → List HttpResp → PollOutcome String
  | _, [] => .noResponse
  | elapsed, r :: rest =>
    if r.status_code ≠ 200 then
      .failure (FreepikGeminiError (videoPollErrMsg r.status_code r.text)) elapsed
    else
      match r.data.generated.getD [] with
      | g :: _ => .success g elapsed
      | [] =>
        if elapsed > timeout then
          .failure (FreepikGeminiError (videoTimeoutMsg task_id r.data.status)) elapsed
        else
          waitVideoAux task_id timeout poll_interval (elapsed + poll_interval) rest

/-- `_wait_for_video_task` (`freepik_gemini.py`, lines 122-146). -/
def _wait_for_video_task (task_id : String) (timeout poll_interval : ℚ)
    (resps : List HttpResp) : PollOutcome String :=
  waitVideoAux task_id timeout poll_interval 0 resps

/-- A filesystem path, as its list of components (the string form in the
source carries no structure the code uses beyond `Path(p).parent`). -/
abbrev FilePath' := List String

/-- An HTTP response for a binary download: status code, body text (used only
in the error message) and the chunk sequence `iter_content(chunk_size=8192)`
yields; bytes are modelled as naturals. -/
structure DlResp where
  status_code : Nat
  text : String
  chunks : List (List Nat)
deriving DecidableEq

/-- The modelled filesystem: the set of existing directories and an
association list of files (head entry shadows older ones). -/
structure FS where
  dirs : List FilePath'
  files : List (FilePath' × List Nat)
deriving DecidableEq

/-- Look a path up in the file list (first match wins). -/
def lookupFile : List (FilePath' × List Nat) → FilePath' → Option (List Nat)
  | [], _ => none
  | (q, c) :: rest, p => if q = p then some c else lookupFile rest p

/-- The nonempty initial segments of a directory path: the directories
`mkdir(parents=True, exist_ok=True)` guarantees to exist afterwards. -/
def initSegs (d : FilePath') : List FilePath' :=
  (List.range d.length).map (fun i => d.take (i + 1))

/-- `Path(output_path).parent.mkdir(parents=True, exist_ok=True)`
(`freepik_gemini.py`, line 84): all initial segments of the parent now exist. -/
def mkdirParents (fs : FS) (d : FilePath') : FS :=
  { fs with dirs := initSegs d ++ fs.dirs }

/-- Message of the error raised on a non-200 download response
(`freepik_gemini.py`, line 82). -/
def downloadErrMsg (status_code : Nat) (text : String) : String :=
  "Error downloading file: " ++ Nat.repr status_code ++ " " ++ text

/-- `_download_file` (`freepik_gemini.py`, lines 76-89): check the status
before touching the filesystem; then create the parent directories, write the
concatenation of the non-empty chunks (`if chunk:` skips falsy chunks), and
return the output path.  The filesystem is returned in both cases. -/
def _download_file (r : DlResp) (output_path : FilePath') (fs : FS) :
    Except PyExn FilePath' × FS :=
  if r.status_code ≠ 200 then
    (.error (FreepikGeminiError (downloadErrMsg r.status_code r.text)), fs)
  else
    let fs1 := mkdirParents fs output_path.dropLast
    let content := (r.chunks.filter (fun c => c ≠ [])).flatten
    (.ok output_path, { fs1 with files := (output_path, content) :: fs1.files })

/-- The HTTP traffic one pipeline run can observe: the submission responses,
the successive status responses of each polling loop, and the two download
responses. -/
structure Env where
  createImageResp : HttpResp
  imagePollResps : List HttpResp
  imageDownloadResp : DlResp
  createVideoResp : HttpResp
  videoPollResps : List HttpResp
  videoDownloadResp : DlResp
deriving DecidableEq

/-- Externally visible steps of one pipeline run, in execution order. -/
inductive Event where
  | imageSubmit
  | imagePollStart (task_id : String)
  | imagePollReturn (urls : List String)
  | download (url : String) (path : FilePath')
  | videoSubmit (image_url : String)
  | videoPollStart (task_id : String)
  | videoPollReturn (url : String)
deriving DecidableEq

/-- Result of one run of the pipeline driver. -/
inductive PipeOutcome where
  | ok (base_image_path video_output_path : FilePath') (fs : FS)
  | raised (e : PyExn) (fs : FS)
  | outOfResponses
deriving DecidableEq

/-- `two_step_gemini_image` (`freepik_gemini.py`, lines 151-171): submit the
image task, poll, download `generated_urls_1[0]`, submit the video task with
that same URL, poll, download the video, and return the caller-supplied pair
of paths.  No step's exception is caught.  `generated_urls_1[0]` on an empty
list would raise Python's `IndexError` (an unreachable branch, kept for
faithfulness).  The prompts and API key are forwarded verbatim to the remote
endpoints and do not appear in the model.  Alongside the outcome the driver
records the trace of its externally visible steps. -/
def two_step_gemini_image (env : Env) (base_image_path video_output_path : FilePath')
    (timeout poll_interval : ℚ) (fs : FS) : PipeOutcome × List Event :=
  match _create_gemini_task env.createImageResp with
  | .error e => (.raised e fs, [.imageSubmit])
  | .ok tid1 =>
    match _wait_for_gemini_task tid1 timeout poll_interval env.imagePollResps with
    | .noResponse => (.outOfResponses, [.imageSubmit, .imagePollStart tid1])
    | .failure e _ => (.raised e fs, [.imageSubmit, .imagePollStart tid1])
    | .success urls _ =>
      match urls with
      | [] =>
        (.raised ⟨"IndexError", "list index out of range"⟩ fs,
         [.imageSubmit, .imagePollStart tid1, .imagePollReturn urls])
      | u :: _ =>
        match _download_file env.imageDownloadResp base_image_path fs with
        | (.error e, fs1) =>
          (.raised e fs1,
           [.imageSubmit, .imagePollStart tid1, .imagePollReturn urls,
            .download u base_image_path])
        | (.ok _, fs1) =>
          match _create_video_task env.createVideoResp with
          | .error e =>
            (.raised e fs1,
             [.imageSubmit, .imagePollStart tid1, .imagePollReturn urls,
              .download u base_image_path, .videoSubmit u])
          | .ok tid2 =>
            match _wait_for_video_task tid2 timeout poll_interval env.videoPollResps with
            | .noResponse =>
              (.outOfResponses,
               [.imageSubmit, .imagePollStart tid1, .imagePollReturn urls,
                .download u base_image_path, .videoSubmit u, .videoPollStart tid2])
            | .failure e _ =>
              (.raised e fs1,
               [.imageSubmit, .imagePollStart tid1, .imagePollReturn urls,
                .download u base_image_path, .videoSubmit u, .videoPollStart tid2])
            | .success vurl _ =>
              match _download_file env.videoDownloadResp video_output_path fs1 with
              | (.error e, fs2) =>
                (.raised e fs2,
                 [.imageSubmit, .imagePollStart tid1, .imagePollReturn urls,
                  .download u base_image_path, .videoSubmit u, .videoPollStart tid2,
                  .videoPollReturn vurl, .download vurl video_output_path])
              | (.ok _, fs2) =>
                (.ok base_image_path video_output_path fs2,
                 [.imageSubmit, .imagePollStart tid1, .imagePollReturn urls,
                  .download u base_image_path, .videoSubmit u, .videoPollStart tid2,
                  .videoPollReturn vurl, .download vurl video_output_path])

/-- One stored per-run status value (`backend/app.py`): the dicts written into
`task_status`, projected onto the keys the handlers use. -/
structure TaskState where
  status : String
  progress : Option String := none
  base_image : Option String := none
  video : Option String := none
  error : Option String := none
deriving DecidableEq

/-- A single write on the shared `task_status` mapping: either a whole-value
replacement `task_status[k] = v`, or an in-place mutation of the stored dict
`task_status[k][field] = v`. -/
inductive StoreWrite where
  | replace (key : String) (value : TaskState)
  | setField (key : String) (field value : String)
deriving DecidableEq

/-- The write `create_video_ad_async` itself performs before spawning the
worker (`backend/app.py`, line 171). -/
def create_video_ad_async_initialWrite (task_id : String) : StoreWrite :=
  .replace task_id { status := "processing", progress := some "Starting..." }

/-- The sequence of writes `background_task` (`backend/app.py`, lines 180-199)
performs on `task_status`, as a function of the pipeline result it observes:
first the in-place progress update of line 182, then — depending on whether
`two_step_gemini_image` returned or raised — the whole-value replacement of
line 190 or line 196. -/
def background_task (task_id image_filename video_filename : String)
    (pipelineResult : Except PyExn (FilePath' × FilePath')) : List StoreWrite :=
  StoreWrite.setField task_id "progress" "Generating base image..." ::
  match pipelineResult with
  | .ok _ =>
    [StoreWrite.replace task_id
      { status := "completed",
        base_image := some ("/api/download/" ++ image_filename),
        video := some ("/api/download/" ++ video_filename) }]
  | .error e =>
    [StoreWrite.replace task_id { status := "failed", error := some e.msg }]

/-- The HTTP response of the `create_video_ad` route (`backend/app.py`,
lines 122-143) as a function of the pipeline outcome: 200 with a success
envelope, or 500 with `\x7b"error": str(e)\x7d` for a `FreepikGeminiError`,
or 500 with the `Unexpected error` envelope for any other exception.  The
`outOfResponses` model artefact is mapped to 500 as well. -/
def create_video_ad_response (image_filename video_filename : String)
    (out : PipeOutcome) : Nat × String :=
  match out with
  | .ok _ _ _ =>
    (200,
     "\x7b\"success\": true, \"base_image\": \"/api/download/" ++ image_filename ++
       "\", \"video\": \"/api/download/" ++ video_filename ++
       "\", \"message\": \"Video ad created successfully\"\x7d")
  | .raised e _ =>
    if e.cls = "FreepikGeminiError" then
      (500, "\x7b\"error\": \"" ++ e.msg ++ "\"\x7d")
    else
      (500, "\x7b\"error\": \"Unexpected error: " ++ e.msg ++ "\"\x7d")
  | .outOfResponses => (500, "")

/-- Skipping the falsy chunks (`if chunk:`) does not change the concatenated
content. -/
theorem flatten_filter_ne_nil (l : List (List Nat)) :
    (l.filter (fun c => c ≠ [])).flatten = l.flatten := by
  induction l with
  | nil => simp
  | cons c rest ih =>
    rcases eq_or_ne c [] with hc | hc
    · subst hc
      rw [List.filter_cons_of_neg (by simp)]
      simpa using ih
    · rw [List.filter_cons_of_pos (by simp [hc]), List.flatten_cons, List.flatten_cons, ih]

/-- The image poll loop only succeeds with a non-empty list of URLs. -/
theorem waitGeminiAux_success_ne_nil (tid : String) (t pi : ℚ) :
    ∀ (resps : List HttpResp) (e0 : ℚ) (out : List String) (el : ℚ),
      waitGeminiAux tid t pi e0 resps = .success out el → out ≠ [] := by
  intro resps
  induction resps with
  | nil =>
    intro e0 out el h
    simp [waitGeminiAux] at h
  | cons r rest ih =>
    intro e0 out el h
    simp only [waitGeminiAux] at h
    split at h
    · cases h
    · split at h
      · cases h
        simp
      · split at h
        · cases h
        · exact ih _ _ _ h

/-- Elapsed-time invariant of the image poll loop: starting below
`timeout + poll_interval`, both success and failure end at most at
`timeout + poll_interval`. -/
theorem waitGeminiAux_elapsed_le (tid : String) (t pi : ℚ) :
    ∀ (resps : List HttpResp) (e0 : ℚ), e0 ≤ t + pi →
      (∀ out el, waitGeminiAux tid t pi e0 resps = .success out el → el ≤ t + pi) ∧
      (∀ e el, waitGeminiAux tid t pi e0 resps = .failure e el → el ≤ t + pi) := by
  intro resps
  induction resps with
  | nil =>
    intro e0 he0
    constructor <;> intro a el h <;> simp [waitGeminiAux] at h
  | cons r rest ih =>
    intro e0 he0
    constructor <;> intro a el h <;> simp only [waitGeminiAux] at h
    · split at h
      · cases h
      · split at h
        · cases h; exact he0
        · split at h
          · cases h
          · rename_i hle
            exact (ih (e0 + pi) (by linarith [not_lt.mp (by simpa using hle)])).1 _ _ h
    · split at h
      · cases h; exact he0
      · split at h
        · cases h
        · split at h
          · cases h; exact he0
          · rename_i hle
            exact (ih (e0 + pi) (by linarith [not_lt.mp (by simpa using hle)])).2 _ _ h

/-- Image poll step: a non-200 status response raises the poll error. -/
theorem waitGeminiAux_cons_of_non200 (tid : String) (t pi e0 : ℚ) (r : HttpResp)
    (rest : List HttpResp) (h : r.status_code ≠ 200) :
    waitGeminiAux tid t pi e0 (r :: rest) =
      .failure (FreepikGeminiError (geminiPollErrMsg r.status_code r.text)) e0 := by
  simp only [waitGeminiAux]
  rw [if_pos h]

/-- Image poll step: a 200 response with non-empty `generated` succeeds at
once with the whole list, before the timeout is even consulted. -/
theorem waitGeminiAux_cons_of_gen (tid : String) (t pi e0 : ℚ) (r : HttpResp)
    (rest : List HttpResp) (g : String) (gs : List String)
    (h200 : r.status_code = 200) (hg : r.data.generated.getD [] = g :: gs) :
    waitGeminiAux tid t pi e0 (r :: rest) = .success (g :: gs) e0 := by
  simp only [waitGeminiAux]
  rw [if_neg (by simp [h200]), hg]

/-- Image poll step: a 200 response with empty `generated` past the deadline
raises the timeout error built from this response's status and payload. -/
theorem waitGeminiAux_cons_of_timeout (tid : String) (t pi e0 : ℚ) (r : HttpResp)
    (rest : List HttpResp) (h200 : r.status_code = 200)
    (hg : r.data.generated.getD [] = []) (hgt : e0 > t) :
    waitGeminiAux tid t pi e0 (r :: rest) =
      .failure (FreepikGeminiError (geminiTimeoutMsg tid r.data.status r.data)) e0 := by
  simp only [waitGeminiAux]
  rw [if_neg (by simp [h200]), hg]
  simp [hgt]

/-- Image poll step: a 200 response with empty `generated` within the deadline
sleeps and polls on. -/
theorem waitGeminiAux_cons_of_continue (tid : String) (t pi e0 : ℚ) (r : HttpResp)
    (rest : List HttpResp) (h200 : r.status_code = 200)
    (hg : r.data.generated.getD [] = []) (hngt : ¬e0 > t) :
    waitGeminiAux tid t pi e0 (r :: rest) =
      waitGeminiAux tid t pi (e0 + pi) rest := by
  simp only [waitGeminiAux]
  rw [if_neg (by simp [h200]), hg]
  simp [hngt]

/-- When every status response is HTTP 200 with an empty `generated`, any
failure of the image poll loop is the timeout error, built from the status and
the full payload of the response on which the deadline was found exceeded. -/
theorem waitGeminiAux_timeout_shape (tid : String) (t pi : ℚ) :
    ∀ (resps : List HttpResp) (e0 : ℚ) (e : PyExn) (el : ℚ),
      (∀ r ∈ resps, r.status_code = 200 ∧ r.data.generated.getD [] = []) →
      waitGeminiAux tid t pi e0 resps = .failure e el →
      ∃ i, ∃ h : i < resps.length, el = e0 + pi * i ∧ t < el ∧
        e = FreepikGeminiError
          (geminiTimeoutMsg tid ((resps.get ⟨i, h⟩).data.status) ((resps.get ⟨i, h⟩).data)) := by
  intro resps
  induction resps with
  | nil =>
    intro e0 e el _ h
    simp [waitGeminiAux] at h
  | cons r rest ih =>
    intro e0 e el hall h
    obtain ⟨hr200, hrg⟩ := hall r (by simp)
    by_cases hgt : e0 > t
    · rw [waitGeminiAux_cons_of_timeout tid t pi e0 r rest hr200 hrg hgt] at h
      cases h
      exact ⟨0, by simp, by simp, by simpa using hgt, by simp⟩
    · rw [waitGeminiAux_cons_of_continue tid t pi e0 r rest hr200 hrg hgt] at h
      obtain ⟨i, hi, hel, hlt, he⟩ :=
        ih (e0 + pi) e el (fun p hp => hall p (by simp [hp])) h
      refine ⟨i + 1, by simpa using Nat.succ_lt_succ hi, ?_, hlt, ?_⟩
      · rw [hel]; push_cast; ring
      · simpa using he

/-- When every status response is HTTP 200 with an empty `generated` and the
response sequence is long enough, the image poll loop does fail. -/
theorem waitGeminiAux_timeout_exists (tid : String) (t pi : ℚ) :
    ∀ (resps : List HttpResp) (e0 : ℚ) (j : ℕ),
      (∀ r ∈ resps, r.status_code = 200 ∧ r.data.generated.getD [] = []) →
      j < resps.length → t < e0 + pi * j →
      ∃ e el, waitGeminiAux tid t pi e0 resps = .failure e el := by
  intro resps
  induction resps with
  | nil =>
    intro e0 j _ hj _
    simp at hj
  | cons r rest ih =>
    intro e0 j hall hj hjt
    obtain ⟨hr200, hrg⟩ := hall r (by simp)
    by_cases hgt : e0 > t
    · exact ⟨FreepikGeminiError (geminiTimeoutMsg tid r.data.status r.data), e0,
        waitGeminiAux_cons_of_timeout tid t pi e0 r rest hr200 hrg hgt⟩
    · have hj0 : j ≠ 0 := by
        rintro rfl
        simp only [Nat.cast_zero, mul_zero, add_zero] at hjt
        exact hgt hjt
      obtain ⟨j', rfl⟩ := Nat.exists_eq_succ_of_ne_zero hj0
      obtain ⟨e, el, hrec⟩ :=
        ih (e0 + pi) j' (fun p hp => hall p (by simp [hp]))
          (by simpa using Nat.lt_of_succ_lt_succ hj)
          (by push_cast at hjt ⊢; linarith)
      exact ⟨e, el, by
        rw [waitGeminiAux_cons_of_continue tid t pi e0 r rest hr200 hrg hgt]
        exact hrec⟩

/-- If every response before position `i` is HTTP 200 with empty `generated`
and no timeout fires before `i`, the image poll loop succeeds exactly at the
first response with a non-empty `generated`, returning the whole list —
whatever the `status` strings say, and even if the deadline has passed by the
time that response arrives. -/
theorem waitGeminiAux_prefix_success (tid : String) (t pi : ℚ) :
    ∀ (pre : List HttpResp) (e0 : ℚ) (r : HttpResp) (rest : List HttpResp)
      (g : String) (gs : List String),
      (∀ p ∈ pre, p.status_code = 200 ∧ p.data.generated.getD [] = []) →
      (∀ i : ℕ, i < pre.length → e0 + pi * i ≤ t) →
      r.status_code = 200 → r.data.generated.getD [] = g :: gs →
      waitGeminiAux tid t pi e0 (pre ++ r :: rest) =
        .success (g :: gs) (e0 + pi * pre.length) := by
  intro pre
  induction pre with
  | nil =>
    intro e0 r rest g gs _ _ hr200 hrg
    rw [List.nil_append, waitGeminiAux_cons_of_gen tid t pi e0 r rest g gs hr200 hrg]
    simp
  | cons p pre' ih =>
    intro e0 r rest g gs hall hno hr200 hrg
    obtain ⟨hp200, hpg⟩ := hall p (by simp)
    rw [List.cons_append,
      waitGeminiAux_cons_of_continue tid t pi e0 p (pre' ++ r :: rest) hp200 hpg
        (by simpa using hno 0 (by simp)),
      ih (e0 + pi) r rest g gs (fun q hq => hall q (by simp [hq]))
        (fun i hi => by
          have := hno (i + 1) (by simpa using Nat.succ_lt_succ hi)
          push_cast at this ⊢
          linarith) hr200 hrg]
    congr 1
    rw [List.length_cons]
    push_cast
    ring

/-- Video poll step: a non-200 status response raises the poll error. -/
theorem waitVideoAux_cons_of_non200 (tid : String) (t pi e0 : ℚ) (r : HttpResp)
    (rest : List HttpResp) (h : r.status_code ≠ 200) :
    waitVideoAux tid t pi e0 (r :: rest) =
      .failure (FreepikGeminiError (videoPollErrMsg r.status_code r.text)) e0 := by
  simp only [waitVideoAux]
  rw [if_pos h]

/-- Video poll step: a 200 response with non-empty `generated` succeeds at
once with the first entry, before the timeout is even consulted. -/
theorem waitVideoAux_cons_of_gen (tid : String) (t pi e0 : ℚ) (r : HttpResp)
    (rest : List HttpResp) (g : String) (gs : List String)
    (h200 : r.status_code = 200) (hg : r.data.generated.getD [] = g :: gs) :
    waitVideoAux tid t pi e0 (r :: rest) = .success g e0 := by
  simp only [waitVideoAux]
  rw [if_neg (by simp [h200]), hg]

/-- Video poll step: a 200 response with empty `generated` past the deadline
raises the timeout error built from this response's status only. -/
theorem waitVideoAux_cons_of_timeout (tid : String) (t pi e0 : ℚ) (r : HttpResp)
    (rest : List HttpResp) (h200 : r.status_code = 200)
    (hg : r.data.generated.getD [] = []) (hgt : e0 > t) :
    waitVideoAux tid t pi e0 (r :: rest) =
      .failure (FreepikGeminiError (videoTimeoutMsg tid r.data.status)) e0 := by
  simp only [waitVideoAux]
  rw [if_neg (by simp [h200]), hg]
  simp [hgt]

/-- Video poll step: a 200 response with empty `generated` within the deadline
sleeps and polls on. -/
theorem waitVideoAux_cons_of_continue (tid : String) (t pi e0 : ℚ) (r : HttpResp)
    (rest : List HttpResp) (h200 : r.status_code = 200)
    (hg : r.data.generated.getD [] = []) (hngt : ¬e0 > t) :
    waitVideoAux tid t pi e0 (r :: rest) =
      waitVideoAux tid t pi (e0 + pi) rest := by
  simp only [waitVideoAux]
  rw [if_neg (by simp [h200]), hg]
  simp [hngt]

/-- Elapsed-time invariant of the video poll loop. -/
theorem waitVideoAux_elapsed_le (tid : String) (t pi : ℚ) :
    ∀ (resps : List HttpResp) (e0 : ℚ), e0 ≤ t + pi →
      (∀ out el, waitVideoAux tid t pi e0 resps = .success out el → el ≤ t + pi) ∧
      (∀ e el, waitVideoAux tid t pi e0 resps = .failure e el → el ≤ t + pi) := by
  intro resps
  induction resps with
  | nil =>
    intro e0 he0
    constructor <;> intro a el h <;> simp [waitVideoAux] at h
  | cons r rest ih =>
    intro e0 he0
    constructor <;> intro a el h <;> simp only [waitVideoAux] at h
    · split at h
      · cases h
      · split at h
        · cases h; exact he0
        · split at h
          · cases h
          · rename_i hle
            exact (ih (e0 + pi) (by linarith [not_lt.mp (by simpa using hle)])).1 _ _ h
    · split at h
      · cases h; exact he0
      · split at h
        · cases h
        · split at h
          · cases h; exact he0
          · rename_i hle
            exact (ih (e0 + pi) (by linarith [not_lt.mp (by simpa using hle)])).2 _ _ h

/-- When every status response is HTTP 200 with an empty `generated`, any
failure of the video poll loop is the timeout error, built from the status of
the response on which the deadline was found exceeded — the payload does not
enter the message. -/
theorem waitVideoAux_timeout_shape (tid : String) (t pi : ℚ) :
    ∀ (resps : List HttpResp) (e0 : ℚ) (e : PyExn) (el : ℚ),
      (∀ r ∈ resps, r.status_code = 200 ∧ r.data.generated.getD [] = []) →
      waitVideoAux tid t pi e0 resps = .failure e el →
      ∃ i, ∃ h : i < resps.length, el = e0 + pi * i ∧ t < el ∧
        e = FreepikGeminiError (videoTimeoutMsg tid ((resps.get ⟨i, h⟩).data.status)) := by
  intro resps
  induction resps with
  | nil =>
    intro e0 e el _ h
    simp [waitVideoAux] at h
  | cons r rest ih =>
    intro e0 e el hall h
    obtain ⟨hr200, hrg⟩ := hall r (by simp)
    by_cases hgt : e0 > t
    · rw [waitVideoAux_cons_of_timeout tid t pi e0 r rest hr200 hrg hgt] at h
      cases h
      exact ⟨0, by simp, by simp, by simpa using hgt, by simp⟩
    · rw [waitVideoAux_cons_of_continue tid t pi e0 r rest hr200 hrg hgt] at h
      obtain ⟨i, hi, hel, hlt, he⟩ :=
        ih (e0 + pi) e el (fun p hp => hall p (by simp [hp])) h
      refine ⟨i + 1, by simpa using Nat.succ_lt_succ hi, ?_, hlt, ?_⟩
      · rw [hel]; push_cast; ring
      · simpa using he

/-- When every status response is HTTP 200 with an empty `generated` and the
response sequence is long enough, the video poll loop does fail. -/
theorem waitVideoAux_timeout_exists (tid : String) (t pi : ℚ) :
    ∀ (resps : List HttpResp) (e0 : ℚ) (j : ℕ),
      (∀ r ∈ resps, r.status_code = 200 ∧ r.data.generated.getD [] = []) →
      j < resps.length → t < e0 + pi * j →
      ∃ e el, waitVideoAux tid t pi e0 resps = .failure e el := by
  intro resps
  induction resps with
  | nil =>
    intro e0 j _ hj _
    simp at hj
  | cons r rest ih =>
    intro e0 j hall hj hjt
    obtain ⟨hr200, hrg⟩ := hall r (by simp)
    by_cases hgt : e0 > t
    · exact ⟨FreepikGeminiError (videoTimeoutMsg tid r.data.status), e0,
        waitVideoAux_cons_of_timeout tid t pi e0 r rest hr200 hrg hgt⟩
    · have hj0 : j ≠ 0 := by
        rintro rfl
        simp only [Nat.cast_zero, mul_zero, add_zero] at hjt
        exact hgt hjt
      obtain ⟨j', rfl⟩ := Nat.exists_eq_succ_of_ne_zero hj0
      obtain ⟨e, el, hrec⟩ :=
        ih (e0 + pi) j' (fun p hp => hall p (by simp [hp]))
          (by simpa using Nat.lt_of_succ_lt_succ hj)
          (by push_cast at hjt ⊢; linarith)
      exact ⟨e, el, by
        rw [waitVideoAux_cons_of_continue tid t pi e0 r rest hr200 hrg hgt]
        exact hrec⟩

/-- Video analogue of `waitGeminiAux_prefix_success`: success at the first
non-empty `generated`, returning only its first entry. -/
theorem waitVideoAux_prefix_success (tid : String) (t pi : ℚ) :
    ∀ (pre : List HttpResp) (e0 : ℚ) (r : HttpResp) (rest : List HttpResp)
      (g : String) (gs : List String),
      (∀ p ∈ pre, p.status_code = 200 ∧ p.data.generated.getD [] = []) →
      (∀ i : ℕ, i < pre.length → e0 + pi * i ≤ t) →
      r.status_code = 200 → r.data.generated.getD [] = g :: gs →
      waitVideoAux tid t pi e0 (pre ++ r :: rest) =
        .success g (e0 + pi * pre.length) := by
  intro pre
  induction pre with
  | nil =>
    intro e0 r rest g gs _ _ hr200 hrg
    rw [List.nil_append, waitVideoAux_cons_of_gen tid t pi e0 r rest g gs hr200 hrg]
    simp
  | cons p pre' ih =>
    intro e0 r rest g gs hall hno hr200 hrg
    obtain ⟨hp200, hpg⟩ := hall p (by simp)
    rw [List.cons_append,
      waitVideoAux_cons_of_continue tid t pi e0 p (pre' ++ r :: rest) hp200 hpg
        (by simpa using hno 0 (by simp)),
      ih (e0 + pi) r rest g gs (fun q hq => hall q (by simp [hq]))
        (fun i hi => by
          have := hno (i + 1) (by simpa using Nat.succ_lt_succ hi)
          push_cast at this ⊢
          linarith) hr200 hrg]
    congr 1
    rw [List.length_cons]
    push_cast
    ring

/-- Every exception the image poll loop raises is a `FreepikGeminiError`. -/
theorem waitGeminiAux_failure_cls (tid : String) (t pi : ℚ) :
    ∀ (resps : List HttpResp) (e0 : ℚ) (e : PyExn) (el : ℚ),
      waitGeminiAux tid t pi e0 resps = .failure e el → e.cls = "FreepikGeminiError" := by
  intro resps
  induction resps with
  | nil =>
    intro e0 e el h
    simp [waitGeminiAux] at h
  | cons r rest ih =>
    intro e0 e el h
    simp only [waitGeminiAux] at h
    split at h
    · cases h; rfl
    · split at h
      · cases h
      · split at h
        · cases h; rfl
        · exact ih _ _ _ h

/-- Every exception the video poll loop raises is a `FreepikGeminiError`. -/
theorem waitVideoAux_failure_cls (tid : String) (t pi : ℚ) :
    ∀ (resps : List HttpResp) (e0 : ℚ) (e : PyExn) (el : ℚ),
      waitVideoAux tid t pi e0 resps = .failure e el → e.cls = "FreepikGeminiError" := by
  intro resps
  induction resps with
  | nil =>
    intro e0 e el h
    simp [waitVideoAux] at h
  | cons r rest ih =>
    intro e0 e el h
    simp only [waitVideoAux] at h
    split at h
    · cases h; rfl
    · split at h
      · cases h
      · split at h
        · cases h; rfl
        · exact ih _ _ _ h

/-- Discriminator used to analyse store writes: is this write a whole-value
replacement of a key's entry? -/
def StoreWrite.isReplace : StoreWrite → Bool
  | .replace _ _ => true
  | .setField _ _ _ => false

/-- Claim C5: task submission (image or video) fails exactly when the remote
call does not return HTTP 200 or the payload lacks a task identifier (missing
or empty); the non-success error message carries the HTTP status and the raw
body, the missing-id error message carries the raw body (the status is then
necessarily 200); and when image submission fails, the pipeline driver records
no polling step — only the submission. -/
theorem claim_C5 (resp : HttpResp) :
    ((∃ e, _create_gemini_task resp = .error e) ↔
      (resp.status_code ≠ 200 ∨ resp.data.task_id.getD "" = "")) ∧
    (resp.status_code ≠ 200 →
      _create_gemini_task resp =
        .error (FreepikGeminiError (createGeminiErrMsg resp.status_code resp.text))) ∧
    (resp.status_code = 200 → resp.data.task_id.getD "" = "" →
      _create_gemini_task resp =
        .error (FreepikGeminiError (missingTaskIdMsg resp.text))) ∧
    ((∃ e, _create_video_task resp = .error e) ↔
      (resp.status_code ≠ 200 ∨ resp.data.task_id.getD "" = "")) ∧
    (resp.status_code ≠ 200 →
      _create_video_task resp =
        .error (FreepikGeminiError (createVideoErrMsg resp.status_code resp.text))) ∧
    (resp.status_code = 200 → resp.data.task_id.getD "" = "" →
      _create_video_task resp =
        .error (FreepikGeminiError (missingVideoTaskIdMsg resp.text))) ∧
    (∀ (env : Env) (bip vop : FilePath') (t pi : ℚ) (fs : FS) (e : PyExn),
      env.createImageResp = resp →
      _create_gemini_task resp = .error e →
      (two_step_gemini_image env bip vop t pi fs).2 = [Event.imageSubmit]) := by
  by_cases h200 : resp.status_code = 200
  · by_cases hid : resp.data.task_id.getD "" = ""
    · refine ⟨?_, ?_, ?_, ?_, ?_, ?_, ?_⟩
      · simp [_create_gemini_task, h200, hid]
      · intro h; exact absurd h200 h
      · intro _ _; simp [_create_gemini_task, h200, hid]
      · simp [_create_video_task, h200, hid]
      · intro h; exact absurd h200 h
      · intro _ _; simp [_create_video_task, h200, hid]
      · intro env bip vop t pi fs e henv herr
        simp only [two_step_gemini_image, henv, herr]
    · refine ⟨?_, ?_, ?_, ?_, ?_, ?_, ?_⟩
      · simp [_create_gemini_task, h200, hid]
      · intro h; exact absurd h200 h
      · intro _ h; exact absurd h hid
      · simp [_create_video_task, h200, hid]
      · intro h; exact absurd h200 h
      · intro _ h; exact absurd h hid
      · intro env bip vop t pi fs e henv herr
        simp only [_create_gemini_task] at herr
        rw [if_neg (by simp [h200]), if_neg hid] at herr
        cases herr
  · refine ⟨?_, ?_, ?_, ?_, ?_, ?_, ?_⟩
    · simp [_create_gemini_task, h200]
    · intro _; simp [_create_gemini_task, h200]
    · intro h; exact absurd h h200
    · simp [_create_video_task, h200]
    · intro _; simp [_create_video_task, h200]
    · intro h; exact absurd h h200
    · intro env bip vop t pi fs e henv herr
      simp only [two_step_gemini_image, henv, herr]

/-- Claim C6: a non-success download response raises the download error (whose
message carries the HTTP status and body) and returns the filesystem
untouched: no file is written at the destination and no directory is created,
the failure being detected before any filesystem operation. -/
theorem claim_C6 (r : DlResp) (p : FilePath') (fs : FS) (h : r.status_code ≠ 200) :
    _download_file r p fs =
      (.error (FreepikGeminiError (downloadErrMsg r.status_code r.text)), fs) ∧
    (_download_file r p fs).2.files = fs.files ∧
    (_download_file r p fs).2.dirs = fs.dirs := by
  refine ⟨?_, ?_, ?_⟩ <;> simp [_download_file, h]

/-- Claim C7: a successful download returns the output path, creates every
missing ancestor directory of the output path's parent, writes a file whose
content is exactly the concatenation of the streamed chunks (skipping the
falsy ones changes nothing), and leaves every other file and existing
directory in place. -/
theorem claim_C7 (r : DlResp) (p : FilePath') (fs : FS) (h : r.status_code = 200) :
    ∃ fs2, _download_file r p fs = (.ok p, fs2) ∧
      lookupFile fs2.files p = some r.chunks.flatten ∧
      (∀ d ∈ initSegs p.dropLast, d ∈ fs2.dirs) ∧
      (∀ q, q ≠ p → lookupFile fs2.files q = lookupFile fs.files q) ∧
      (∀ d ∈ fs.dirs, d ∈ fs2.dirs) := by
  refine ⟨{ dirs := initSegs p.dropLast ++ fs.dirs,
            files := (p, (r.chunks.filter (fun c => c ≠ [])).flatten) :: fs.files },
          ?_, ?_, ?_, ?_, ?_⟩
  · simp [_download_file, h, mkdirParents]
  · have hl : lookupFile ((p, (r.chunks.filter (fun c => c ≠ [])).flatten) :: fs.files) p
        = some ((r.chunks.filter (fun c => c ≠ [])).flatten) := by
      simp [lookupFile]
    rw [hl, flatten_filter_ne_nil]
  · intro d hd
    simp [hd]
  · intro q hq
    simp only [lookupFile]
    rw [if_neg (fun hpq => hq hpq.symm)]
  · intro d hd
    simp [hd]

/-- Claim C1: provided no timeout fires during the still-processing prefix,
both poll loops return on the very first response whose `generated` list is
non-empty — whatever every `status` string says, and even if the deadline has
already passed at that response; responses with a missing, null or empty
`generated` (all modelled by `getD [] = []`) only make the loop continue.  The
image loop returns the whole list, the video loop only the first entry. -/
theorem claim_C1 (tid : String) (t pi : ℚ) (pre : List HttpResp) (r : HttpResp)
    (rest : List HttpResp) (g : String) (gs : List String)
    (hpre : ∀ p ∈ pre, p.status_code = 200 ∧ p.data.generated.getD [] = [])
    (hno : ∀ i : ℕ, i < pre.length → pi * i ≤ t)
    (hr200 : r.status_code = 200)
    (hrg : r.data.generated.getD [] = g :: gs) :
    _wait_for_gemini_task tid t pi (pre ++ r :: rest) =
      .success (g :: gs) (pi * pre.length) ∧
    _wait_for_video_task tid t pi (pre ++ r :: rest) =
      .success g (pi * pre.length) := by
  constructor
  · have h := waitGeminiAux_prefix_success tid t pi pre 0 r rest g gs hpre
      (fun i hi => by simpa using hno i hi) hr200 hrg
    simpa [_wait_for_gemini_task] using h
  · have h := waitVideoAux_prefix_success tid t pi pre 0 r rest g gs hpre
      (fun i hi => by simpa using hno i hi) hr200 hrg
    simpa [_wait_for_video_task] using h

/-- Concrete instance of C1 (the spec's Scenario 1 timing): one
still-processing response, then `generated` non-empty on the second poll with
the status still `IN_PROGRESS` — both loops succeed at elapsed time 2. -/
theorem claim_C1_witness :
    _wait_for_gemini_task "t1" 120 2
        ([⟨200, "", { status := some "IN_PROGRESS", generated := some [] }⟩] ++
          ⟨200, "", { status := some "IN_PROGRESS",
                      generated := some ["https://cdn/img1.png"] }⟩ :: []) =
      .success ["https://cdn/img1.png"] 2 ∧
    _wait_for_video_task "t1" 120 2
        ([⟨200, "", { status := some "IN_PROGRESS", generated := some [] }⟩] ++
          ⟨200, "", { status := some "IN_PROGRESS",
                      generated := some ["https://cdn/img1.png"] }⟩ :: []) =
      .success "https://cdn/img1.png" 2 := by
  have h := claim_C1 "t1" 120 2
    [⟨200, "", { status := some "IN_PROGRESS", generated := some [] }⟩]
    ⟨200, "", { status := some "IN_PROGRESS", generated := some ["https://cdn/img1.png"] }⟩
    [] "https://cdn/img1.png" []
    (by
      intro p hp
      rw [List.mem_singleton] at hp
      subst hp
      exact ⟨rfl, rfl⟩)
    (by
      intro i hi
      have : i = 0 := Nat.lt_one_iff.mp (by simpa using hi)
      subst this
      norm_num)
    rfl rfl
  simpa using h

/-- Claim C2: with a non-negative timeout and poll interval, both poll loops
end (successfully or not) at an elapsed time of at most
`timeout + poll_interval`; and when every response reports no output and the
response sequence lasts past the deadline, both loops fail at an elapsed time
strictly greater than `timeout` and at most `timeout + poll_interval` —
neither immediately nor unboundedly later. -/
theorem claim_C2 (tid : String) (t pi : ℚ) (resps : List HttpResp)
    (ht : 0 ≤ t) (hpi : 0 ≤ pi) :
    (∀ out el, _wait_for_gemini_task tid t pi resps = .success out el → el ≤ t + pi) ∧
    (∀ e el, _wait_for_gemini_task tid t pi resps = .failure e el → el ≤ t + pi) ∧
    (∀ out el, _wait_for_video_task tid t pi resps = .success out el → el ≤ t + pi) ∧
    (∀ e el, _wait_for_video_task tid t pi resps = .failure e el → el ≤ t + pi) ∧
    ((∀ r ∈ resps, r.status_code = 200 ∧ r.data.generated.getD [] = []) →
      ∀ j : ℕ, j < resps.length → t < pi * j →
        (∃ e el, _wait_for_gemini_task tid t pi resps = .failure e el ∧
          t < el ∧ el ≤ t + pi) ∧
        (∃ e el, _wait_for_video_task tid t pi resps = .failure e el ∧
          t < el ∧ el ≤ t + pi)) := by
  have h0 : (0 : ℚ) ≤ t + pi := by linarith
  refine ⟨(waitGeminiAux_elapsed_le tid t pi resps 0 h0).1,
          (waitGeminiAux_elapsed_le tid t pi resps 0 h0).2,
          (waitVideoAux_elapsed_le tid t pi resps 0 h0).1,
          (waitVideoAux_elapsed_le tid t pi resps 0 h0).2, ?_⟩
  intro hall j hj hjt
  constructor
  · obtain ⟨e, el, hf⟩ :=
      waitGeminiAux_timeout_exists tid t pi resps 0 j hall hj (by simpa using hjt)
    obtain ⟨i, hi, hel, hlt, -⟩ :=
      waitGeminiAux_timeout_shape tid t pi resps 0 e el hall hf
    exact ⟨e, el, hf, hlt, (waitGeminiAux_elapsed_le tid t pi resps 0 h0).2 e el hf⟩
  · obtain ⟨e, el, hf⟩ :=
      waitVideoAux_timeout_exists tid t pi resps 0 j hall hj (by simpa using hjt)
    obtain ⟨i, hi, hel, hlt, -⟩ :=
      waitVideoAux_timeout_shape tid t pi resps 0 e el hall hf
    exact ⟨e, el, hf, hlt, (waitVideoAux_elapsed_le tid t pi resps 0 h0).2 e el hf⟩

/-- Concrete instance of C2 (the spec's Scenario 2 timing): every response for
longer than 120 time units reports `generated: []` with `timeout = 120` and
`poll_interval = 2`; the image poll loop fails after more than 120 and at most
122 time units. -/
theorem claim_C2_witness :
    ∃ e el,
      _wait_for_gemini_task "t1" 120 2
          (List.replicate 66 ⟨200, "", { status := some "IN_PROGRESS",
                                         generated := some [] }⟩) =
        .failure e el ∧ 120 < el ∧ el ≤ 120 + 2 := by
  have h := (claim_C2 "t1" 120 2
      (List.replicate 66 ⟨200, "", { status := some "IN_PROGRESS",
                                     generated := some [] }⟩)
      (by norm_num) (by norm_num)).2.2.2.2
    (by
      intro r hr
      rw [List.eq_of_mem_replicate hr]
      exact ⟨rfl, rfl⟩)
    65 (by simp) (by norm_num)
  exact h.1

/-- Claim C8, amended: when polling exceeds its deadline with every response
reporting no output, the raised timeout error is built from the response on
which the deadline was found exceeded — for the image loop it carries the last
observed status and the repr of the full last payload, for the video loop it
carries only the last observed status. -/
theorem claim_C8 (tid : String) (t pi : ℚ) (resps : List HttpResp)
    (hall : ∀ r ∈ resps, r.status_code = 200 ∧ r.data.generated.getD [] = []) :
    (∀ e el, _wait_for_gemini_task tid t pi resps = .failure e el →
      ∃ i, ∃ h : i < resps.length, el = pi * i ∧ t < el ∧
        e = FreepikGeminiError
          (geminiTimeoutMsg tid ((resps.get ⟨i, h⟩).data.status)
            ((resps.get ⟨i, h⟩).data))) ∧
    (∀ e el, _wait_for_video_task tid t pi resps = .failure e el →
      ∃ i, ∃ h : i < resps.length, el = pi * i ∧ t < el ∧
        e = FreepikGeminiError (videoTimeoutMsg tid ((resps.get ⟨i, h⟩).data.status))) := by
  constructor
  · intro e el hf
    obtain ⟨i, hi, hel, hlt, he⟩ :=
      waitGeminiAux_timeout_shape tid t pi resps 0 e el hall hf
    exact ⟨i, hi, by simpa using hel, hlt, he⟩
  · intro e el hf
    obtain ⟨i, hi, hel, hlt, he⟩ :=
      waitVideoAux_timeout_shape tid t pi resps 0 e el hall hf
    exact ⟨i, hi, by simpa using hel, hlt, he⟩

/-- First still-processing response used by the C8 counterexample: status
`IN_PROGRESS`, `generated` missing. -/
def c8Empty : HttpResp := ⟨200, "", { status := some "IN_PROGRESS" }⟩

/-- Second response, run A: `generated` missing from the payload. -/
def c8LastA : HttpResp := ⟨200, "", { status := some "IN_PROGRESS" }⟩

/-- Second response, run B: `generated` present but empty — a different
payload with the same status. -/
def c8LastB : HttpResp :=
  ⟨200, "", { status := some "IN_PROGRESS", generated := some [] }⟩

/-- Counterexample to claim C8 as stated: two video-poll runs whose last
payloads differ (`generated` absent vs. present-but-empty) exceed the deadline
and raise byte-identical timeout errors, so the video timeout error cannot
carry the full last payload — it carries only the status. -/
theorem claim_C8_counterexample :
    c8LastA.data ≠ c8LastB.data ∧
    _wait_for_video_task "t2" 0 1 [c8Empty, c8LastA] =
      _wait_for_video_task "t2" 0 1 [c8Empty, c8LastB] ∧
    _wait_for_video_task "t2" 0 1 [c8Empty, c8LastA] =
      .failure (FreepikGeminiError (videoTimeoutMsg "t2" (some "IN_PROGRESS"))) 1 := by
  refine ⟨by simp [c8LastA, c8LastB], ?_, ?_⟩ <;>
    norm_num [_wait_for_video_task, waitVideoAux, c8Empty, c8LastA, c8LastB]

/-- Concrete instance of the amended C8: a video-poll run that times out on
its second response yields exactly the status-only timeout error at elapsed
time 1. -/
theorem claim_C8_witness :
    ∃ i, ∃ h : i < ([c8Empty, c8LastA] : List HttpResp).length, (1 : ℚ) = 1 * i ∧ (0 : ℚ) < 1 ∧
      FreepikGeminiError (videoTimeoutMsg "t2" (some "IN_PROGRESS")) =
        FreepikGeminiError
          (videoTimeoutMsg "t2" ((([c8Empty, c8LastA] : List HttpResp).get ⟨i, h⟩).data.status)) := by
  have h := (claim_C8 "t2" 0 1 [c8Empty, c8LastA]
      (by
        intro r hr
        simp only [List.mem_cons, List.mem_singleton, List.not_mem_nil, or_false] at hr
        rcases hr with rfl | rfl
        · exact ⟨rfl, rfl⟩
        · exact ⟨rfl, rfl⟩)).2
    (FreepikGeminiError (videoTimeoutMsg "t2" (some "IN_PROGRESS"))) 1
    (by norm_num [_wait_for_video_task, waitVideoAux, c8Empty, c8LastA])
  exact h

/-- Claim C9, amended: the background worker's first write on the shared
`task_status` mapping is an in-place mutation of the previously stored value
(setting its `progress` key), not a whole-value replacement; every subsequent
worker write, and the route handler's own initial write, is a whole-value
replacement of the entry for the run identifier. -/
theorem claim_C9 (tid ifn vfn : String)
    (res : Except PyExn (FilePath' × FilePath')) :
    (background_task tid ifn vfn res).head? =
      some (StoreWrite.setField tid "progress" "Generating base image...") ∧
    (StoreWrite.setField tid "progress" "Generating base image...").isReplace = false ∧
    (∀ w ∈ (background_task tid ifn vfn res).tail, w.isReplace = true) ∧
    (create_video_ad_async_initialWrite tid).isReplace = true := by
  refine ⟨?_, rfl, ?_, rfl⟩
  · cases res <;> rfl
  · intro w hw
    cases res <;>
      · simp only [background_task, List.tail_cons, List.mem_singleton] at hw
        subst hw
        rfl

/-- Counterexample to claim C9 as stated: on a failed pipeline run the
worker's first write on the shared mapping is `task_status[id]["progress"] =
...` — an in-place mutation of the stored dict, not a whole-value
replacement. -/
theorem claim_C9_counterexample :
    (background_task "run1" "img.png" "vid.mp4"
        (.error ⟨"FreepikGeminiError", "boom"⟩)).head? =
      some (StoreWrite.setField "run1" "progress" "Generating base image...") ∧
    (StoreWrite.setField "run1" "progress" "Generating base image...").isReplace = false := by
  exact ⟨rfl, rfl⟩

/-- Concrete instance of the amended C9: on a successful run the worker's
trailing write is the whole-value `completed` replacement. -/
theorem claim_C9_witness :
    (background_task "run1" "img.png" "vid.mp4"
        (.ok (["outputs", "img.png"], ["outputs", "vid.mp4"]))).head? =
      some (StoreWrite.setField "run1" "progress" "Generating base image...") ∧
    (StoreWrite.replace "run1"
      { status := "completed",
        base_image := some "/api/download/img.png",
        video := some "/api/download/vid.mp4" }).isReplace = true := by
  refine ⟨(claim_C9 "run1" "img.png" "vid.mp4"
    (.ok (["outputs", "img.png"], ["outputs", "vid.mp4"]))).1, ?_⟩
  exact (claim_C9 "run1" "img.png" "vid.mp4"
      (.ok (["outputs", "img.png"], ["outputs", "vid.mp4"]))).2.2.1 _
    (by simp [background_task])

/-- Two designated elements in their relative order form a sublist of the
five-slot prefix pattern shared by every driver trace that reaches the video
submission, whatever trailing events follow. -/
theorem sublist_pair_of_shape {α : Type} (x y a b c : α) (l : List α) :
    [x, y].Sublist (a :: b :: x :: c :: y :: l) :=
  (((((List.nil_sublist l).cons₂ y).cons c).cons₂ x).cons b).cons a

/-- Claim C3: whenever the pipeline driver submits a video task, the image
poll step has already returned — earlier in the trace — a non-empty URL list,
and the video submission uses exactly its first entry. -/
theorem claim_C3 (env : Env) (bip vop : FilePath') (t pi : ℚ) (fs : FS) (u : String)
    (hmem : Event.videoSubmit u ∈ (two_step_gemini_image env bip vop t pi fs).2) :
    ∃ gs, [Event.imagePollReturn (u :: gs), Event.videoSubmit u].Sublist
      (two_step_gemini_image env bip vop t pi fs).2 := by
  cases hc1 : _create_gemini_task env.createImageResp with
  | error e1 =>
    simp [two_step_gemini_image, hc1] at hmem
  | ok tid1 =>
    cases hw1 : _wait_for_gemini_task tid1 t pi env.imagePollResps with
    | noResponse =>
      simp [two_step_gemini_image, hc1, hw1] at hmem
    | failure e1 el1 =>
      simp [two_step_gemini_image, hc1, hw1] at hmem
    | success urls el1 =>
      cases urls with
      | nil =>
        simp [two_step_gemini_image, hc1, hw1] at hmem
      | cons u0 urls' =>
        cases hd1 : _download_file env.imageDownloadResp bip fs with
        | mk d1 fs1 =>
          cases d1 with
          | error e =>
            simp [two_step_gemini_image, hc1, hw1, hd1] at hmem
          | ok p1 =>
            cases hc2 : _create_video_task env.createVideoResp with
            | error e2 =>
              simp only [two_step_gemini_image, hc1, hw1, hd1, hc2] at hmem ⊢
              obtain rfl : u = u0 := by simpa using hmem
              exact ⟨urls', sublist_pair_of_shape _ _ _ _ _ _⟩
            | ok tid2 =>
              cases hw2 : _wait_for_video_task tid2 t pi env.videoPollResps with
              | noResponse =>
                simp only [two_step_gemini_image, hc1, hw1, hd1, hc2, hw2] at hmem ⊢
                obtain rfl : u = u0 := by simpa using hmem
                exact ⟨urls', sublist_pair_of_shape _ _ _ _ _ _⟩
              | failure e2 el2 =>
                simp only [two_step_gemini_image, hc1, hw1, hd1, hc2, hw2] at hmem ⊢
                obtain rfl : u = u0 := by simpa using hmem
                exact ⟨urls', sublist_pair_of_shape _ _ _ _ _ _⟩
              | success vurl el2 =>
                cases hd2 : _download_file env.videoDownloadResp vop fs1 with
                | mk d2 fs2 =>
                  cases d2 with
                  | error e3 =>
                    simp only [two_step_gemini_image, hc1, hw1, hd1, hc2, hw2, hd2] at hmem ⊢
                    obtain rfl : u = u0 := by simpa using hmem
                    exact ⟨urls', sublist_pair_of_shape _ _ _ _ _ _⟩
                  | ok p2 =>
                    simp only [two_step_gemini_image, hc1, hw1, hd1, hc2, hw2, hd2] at hmem ⊢
                    obtain rfl : u = u0 := by simpa using hmem
                    exact ⟨urls', sublist_pair_of_shape _ _ _ _ _ _⟩

/-- An environment in which every remote call of one pipeline run succeeds
(the spec's Scenario 4 shape: one image URL, one video URL). -/
def envOk : Env :=
  { createImageResp := ⟨200, "", { task_id := some "t1" }⟩,
    imagePollResps :=
      [⟨200, "", { status := some "COMPLETED",
                   generated := some ["https://cdn/img1.png"] }⟩],
    imageDownloadResp := ⟨200, "", [[1, 2], [3]]⟩,
    createVideoResp := ⟨200, "", { task_id := some "t2" }⟩,
    videoPollResps :=
      [⟨200, "", { status := some "COMPLETED",
                   generated := some ["https://cdn/vid.mp4"] }⟩],
    videoDownloadResp := ⟨200, "", [[7]]⟩ }

/-- Concrete instance of C3: in a fully successful run the video submission
uses the first (here: only) URL the image poll returned, and the poll return
precedes the submission in the trace. -/
theorem claim_C3_witness :
    ∃ gs, [Event.imagePollReturn ("https://cdn/img1.png" :: gs),
           Event.videoSubmit "https://cdn/img1.png"].Sublist
      (two_step_gemini_image envOk ["outputs", "img.png"] ["outputs", "vid.mp4"]
        120 2 ⟨[], []⟩).2 := by
  apply claim_C3 envOk ["outputs", "img.png"] ["outputs", "vid.mp4"] 120 2 ⟨[], []⟩
    "https://cdn/img1.png"
  norm_num [two_step_gemini_image, envOk, _create_gemini_task,
    _wait_for_gemini_task, waitGeminiAux, _create_video_task,
    _wait_for_video_task, waitVideoAux, _download_file]
  rw [if_neg (by decide : ¬("t1" : String) = ""),
    if_neg (by decide : ¬("t2" : String) = "")]
  simp

/-- Claim C4: every driver run (whose modelled response streams suffice)
either raises and yields no result, or succeeds returning exactly the
caller-supplied pair of paths; and each sub-step's exception — image
submission, image polling, image download, video submission, video polling,
video download — is propagated by the driver unmodified. -/
theorem claim_C4 (env : Env) (bip vop : FilePath') (t pi : ℚ) (fs : FS) :
    ((two_step_gemini_image env bip vop t pi fs).1 ≠ .outOfResponses →
      (∃ e fsE, (two_step_gemini_image env bip vop t pi fs).1 = .raised e fsE) ∨
      (∃ fsO, (two_step_gemini_image env bip vop t pi fs).1 = .ok bip vop fsO)) ∧
    (∀ e, _create_gemini_task env.createImageResp = .error e →
      (two_step_gemini_image env bip vop t pi fs).1 = .raised e fs) ∧
    (∀ tid1 e el, _create_gemini_task env.createImageResp = .ok tid1 →
      _wait_for_gemini_task tid1 t pi env.imagePollResps = .failure e el →
      (two_step_gemini_image env bip vop t pi fs).1 = .raised e fs) ∧
    (∀ tid1 u urls' el e fs1, _create_gemini_task env.createImageResp = .ok tid1 →
      _wait_for_gemini_task tid1 t pi env.imagePollResps = .success (u :: urls') el →
      _download_file env.imageDownloadResp bip fs = (.error e, fs1) →
      (two_step_gemini_image env bip vop t pi fs).1 = .raised e fs1) ∧
    (∀ tid1 u urls' el p1 fs1 e, _create_gemini_task env.createImageResp = .ok tid1 →
      _wait_for_gemini_task tid1 t pi env.imagePollResps = .success (u :: urls') el →
      _download_file env.imageDownloadResp bip fs = (.ok p1, fs1) →
      _create_video_task env.createVideoResp = .error e →
      (two_step_gemini_image env bip vop t pi fs).1 = .raised e fs1) ∧
    (∀ tid1 u urls' el p1 fs1 tid2 e el2,
      _create_gemini_task env.createImageResp = .ok tid1 →
      _wait_for_gemini_task tid1 t pi env.imagePollResps = .success (u :: urls') el →
      _download_file env.imageDownloadResp bip fs = (.ok p1, fs1) →
      _create_video_task env.createVideoResp = .ok tid2 →
      _wait_for_video_task tid2 t pi env.videoPollResps = .failure e el2 →
      (two_step_gemini_image env bip vop t pi fs).1 = .raised e fs1) ∧
    (∀ tid1 u urls' el p1 fs1 tid2 vurl el2 e fs2,
      _create_gemini_task env.createImageResp = .ok tid1 →
      _wait_for_gemini_task tid1 t pi env.imagePollResps = .success (u :: urls') el →
      _download_file env.imageDownloadResp bip fs = (.ok p1, fs1) →
      _create_video_task env.createVideoResp = .ok tid2 →
      _wait_for_video_task tid2 t pi env.videoPollResps = .success vurl el2 →
      _download_file env.videoDownloadResp vop fs1 = (.error e, fs2) →
      (two_step_gemini_image env bip vop t pi fs).1 = .raised e fs2) := by
  refine ⟨?_, ?_, ?_, ?_, ?_, ?_, ?_⟩
  · intro hne
    cases hc1 : _create_gemini_task env.createImageResp with
    | error e1 => exact .inl ⟨e1, fs, by simp [two_step_gemini_image, hc1]⟩
    | ok tid1 =>
      cases hw1 : _wait_for_gemini_task tid1 t pi env.imagePollResps with
      | noResponse => exact absurd (by simp [two_step_gemini_image, hc1, hw1]) hne
      | failure e1 el1 =>
        exact .inl ⟨e1, fs, by simp [two_step_gemini_image, hc1, hw1]⟩
      | success urls el1 =>
        cases urls with
        | nil =>
          exact .inl ⟨⟨"IndexError", "list index out of range"⟩, fs,
            by simp [two_step_gemini_image, hc1, hw1]⟩
        | cons u urls' =>
          cases hd1 : _download_file env.imageDownloadResp bip fs with
          | mk d1 fs1 =>
            cases d1 with
            | error e =>
              exact .inl ⟨e, fs1, by simp [two_step_gemini_image, hc1, hw1, hd1]⟩
            | ok p1 =>
              cases hc2 : _create_video_task env.createVideoResp with
              | error e2 =>
                exact .inl ⟨e2, fs1,
                  by simp [two_step_gemini_image, hc1, hw1, hd1, hc2]⟩
              | ok tid2 =>
                cases hw2 : _wait_for_video_task tid2 t pi env.videoPollResps with
                | noResponse =>
                  exact absurd
                    (by simp [two_step_gemini_image, hc1, hw1, hd1, hc2, hw2]) hne
                | failure e2 el2 =>
                  exact .inl ⟨e2, fs1,
                    by simp [two_step_gemini_image, hc1, hw1, hd1, hc2, hw2]⟩
                | success vurl el2 =>
                  cases hd2 : _download_file env.videoDownloadResp vop fs1 with
                  | mk d2 fs2 =>
                    cases d2 with
                    | error e3 =>
                      exact .inl ⟨e3, fs2,
                        by simp [two_step_gemini_image, hc1, hw1, hd1, hc2, hw2, hd2]⟩
                    | ok p2 =>
                      exact .inr ⟨fs2,
                        by simp [two_step_gemini_image, hc1, hw1, hd1, hc2, hw2, hd2]⟩
  · intro e h1
    simp [two_step_gemini_image, h1]
  · intro tid1 e el h1 h2
    simp [two_step_gemini_image, h1, h2]
  · intro tid1 u urls' el e fs1 h1 h2 h3
    simp [two_step_gemini_image, h1, h2, h3]
  · intro tid1 u urls' el p1 fs1 e h1 h2 h3 h4
    simp [two_step_gemini_image, h1, h2, h3, h4]
  · intro tid1 u urls' el p1 fs1 tid2 e el2 h1 h2 h3 h4 h5
    simp [two_step_gemini_image, h1, h2, h3, h4, h5]
  · intro tid1 u urls' el p1 fs1 tid2 vurl el2 e fs2 h1 h2 h3 h4 h5 h6
    simp [two_step_gemini_image, h1, h2, h3, h4, h5, h6]

/-- An environment in which image-task submission is rejected with HTTP 500. -/
def envBad : Env :=
  { createImageResp := ⟨500, "server error", {}⟩,
    imagePollResps := [],
    imageDownloadResp := ⟨200, "", []⟩,
    createVideoResp := ⟨500, "server error", {}⟩,
    videoPollResps := [],
    videoDownloadResp := ⟨200, "", []⟩ }

/-- Concrete instance of C4: when image submission fails, the driver raises
and produces no result pair. -/
theorem claim_C4_witness :
    ∃ e fsE, (two_step_gemini_image envBad ["outputs", "img.png"]
      ["outputs", "vid.mp4"] 120 2 ⟨[], []⟩).1 = .raised e fsE := by
  have hrun : (two_step_gemini_image envBad ["outputs", "img.png"]
      ["outputs", "vid.mp4"] 120 2 ⟨[], []⟩).1 =
      .raised (FreepikGeminiError (createGeminiErrMsg 500 "server error")) ⟨[], []⟩ :=
    (claim_C4 envBad ["outputs", "img.png"] ["outputs", "vid.mp4"] 120 2 ⟨[], []⟩).2.1
      (FreepikGeminiError (createGeminiErrMsg 500 "server error"))
      (by norm_num [_create_gemini_task, envBad])
  exact ⟨_, _, hrun⟩

/-- Every exception image-task creation raises is a `FreepikGeminiError`. -/
theorem _create_gemini_task_error_cls (resp : HttpResp) (e : PyExn)
    (h : _create_gemini_task resp = .error e) : e.cls = "FreepikGeminiError" := by
  simp only [_create_gemini_task] at h
  split at h
  · cases h; rfl
  · split at h
    · cases h; rfl
    · cases h

/-- Every exception video-task creation raises is a `FreepikGeminiError`. -/
theorem _create_video_task_error_cls (resp : HttpResp) (e : PyExn)
    (h : _create_video_task resp = .error e) : e.cls = "FreepikGeminiError" := by
  simp only [_create_video_task] at h
  split at h
  · cases h; rfl
  · split at h
    · cases h; rfl
    · cases h

/-- Every exception the download helper raises is a `FreepikGeminiError`. -/
theorem _download_file_error_cls (r : DlResp) (p : FilePath') (fs : FS) (e : PyExn)
    (fs' : FS) (h : _download_file r p fs = (.error e, fs')) :
    e.cls = "FreepikGeminiError" := by
  simp only [_download_file] at h
  split at h
  · cases h; rfl
  · cases h

/-- Claim C10: submission failures, polling HTTP failures, timeouts and
download failures are all raised as the single exception class
`FreepikGeminiError`; every exception the driver propagates has that class
(the `IndexError` branch is unreachable because a successful poll always
returns a non-empty list); and the route handler maps every such error to one
generic HTTP 500 response whose body carries only the message text. -/
theorem claim_C10 :
    (∀ resp e, _create_gemini_task resp = .error e → e.cls = "FreepikGeminiError") ∧
    (∀ resp e, _create_video_task resp = .error e → e.cls = "FreepikGeminiError") ∧
    (∀ tid (t pi : ℚ) resps e el,
      _wait_for_gemini_task tid t pi resps = .failure e el →
      e.cls = "FreepikGeminiError") ∧
    (∀ tid (t pi : ℚ) resps e el,
      _wait_for_video_task tid t pi resps = .failure e el →
      e.cls = "FreepikGeminiError") ∧
    (∀ r p fs e fs', _download_file r p fs = (.error e, fs') →
      e.cls = "FreepikGeminiError") ∧
    (∀ env bip vop (t pi : ℚ) fs e fsE,
      (two_step_gemini_image env bip vop t pi fs).1 = .raised e fsE →
      e.cls = "FreepikGeminiError") ∧
    (∀ ifn vfn e fsE, e.cls = "FreepikGeminiError" →
      create_video_ad_response ifn vfn (.raised e fsE) =
        (500, "\x7b\"error\": \"" ++ e.msg ++ "\"\x7d")) := by
  refine ⟨_create_gemini_task_error_cls, _create_video_task_error_cls,
    ?_, ?_, _download_file_error_cls, ?_, ?_⟩
  · intro tid t pi resps e el h
    exact waitGeminiAux_failure_cls tid t pi resps 0 e el
      (by simpa [_wait_for_gemini_task] using h)
  · intro tid t pi resps e el h
    exact waitVideoAux_failure_cls tid t pi resps 0 e el
      (by simpa [_wait_for_video_task] using h)
  · intro env bip vop t pi fs e fsE h
    cases hc1 : _create_gemini_task env.createImageResp with
    | error e1 =>
      simp only [two_step_gemini_image, hc1, PipeOutcome.raised.injEq] at h
      obtain ⟨rfl, -⟩ := h
      exact _create_gemini_task_error_cls env.createImageResp e1 hc1
    | ok tid1 =>
      cases hw1 : _wait_for_gemini_task tid1 t pi env.imagePollResps with
      | noResponse =>
        simp [two_step_gemini_image, hc1, hw1] at h
      | failure e1 el1 =>
        simp only [two_step_gemini_image, hc1, hw1, PipeOutcome.raised.injEq] at h
        obtain ⟨rfl, -⟩ := h
        exact waitGeminiAux_failure_cls tid1 t pi env.imagePollResps 0 e1 el1
          (by simpa [_wait_for_gemini_task] using hw1)
      | success urls el1 =>
        cases urls with
        | nil =>
          exact absurd rfl (waitGeminiAux_success_ne_nil tid1 t pi
            env.imagePollResps 0 [] el1
            (by simpa [_wait_for_gemini_task] using hw1))
        | cons u urls' =>
          cases hd1 : _download_file env.imageDownloadResp bip fs with
          | mk d1 fs1 =>
            cases d1 with
            | error e1 =>
              simp only [two_step_gemini_image, hc1, hw1, hd1,
                PipeOutcome.raised.injEq] at h
              obtain ⟨rfl, -⟩ := h
              exact _download_file_error_cls env.imageDownloadResp bip fs e1 fs1 hd1
            | ok p1 =>
              cases hc2 : _create_video_task env.createVideoResp with
              | error e2 =>
                simp only [two_step_gemini_image, hc1, hw1, hd1, hc2,
                  PipeOutcome.raised.injEq] at h
                obtain ⟨rfl, -⟩ := h
                exact _create_video_task_error_cls env.createVideoResp e2 hc2
              | ok tid2 =>
                cases hw2 : _wait_for_video_task tid2 t pi env.videoPollResps with
                | noResponse =>
                  simp [two_step_gemini_image, hc1, hw1, hd1, hc2, hw2] at h
                | failure e2 el2 =>
                  simp only [two_step_gemini_image, hc1, hw1, hd1, hc2, hw2,
                    PipeOutcome.raised.injEq] at h
                  obtain ⟨rfl, -⟩ := h
                  exact waitVideoAux_failure_cls tid2 t pi env.videoPollResps 0 e2 el2
                    (by simpa [_wait_for_video_task] using hw2)
                | success vurl el2 =>
                  cases hd2 : _download_file env.videoDownloadResp vop fs1 with
                  | mk d2 fs2 =>
                    cases d2 with
                    | error e3 =>
                      simp only [two_step_gemini_image, hc1, hw1, hd1, hc2, hw2, hd2,
                        PipeOutcome.raised.injEq] at h
                      obtain ⟨rfl, -⟩ := h
                      exact _download_file_error_cls env.videoDownloadResp vop fs1 e3 fs2 hd2
                    | ok p2 =>
                      simp [two_step_gemini_image, hc1, hw1, hd1, hc2, hw2, hd2] at h
  · intro ifn vfn e fsE hcls
    simp [create_video_ad_response, hcls]

/-- Concrete instance of C10: a rejected image submission raises a
`FreepikGeminiError`, and the route handler turns any `FreepikGeminiError`
into an HTTP 500 with the generic error envelope. -/
theorem claim_C10_witness :
    (FreepikGeminiError (createGeminiErrMsg 500 "server error")).cls =
      "FreepikGeminiError" ∧
    create_video_ad_response "img.png" "vid.mp4"
        (.raised (FreepikGeminiError "boom") ⟨[], []⟩) =
      (500, "\x7b\"error\": \"" ++ "boom" ++ "\"\x7d") := by
  constructor
  · exact claim_C10.1 ⟨500, "server error", {}⟩ _
      (by norm_num [_create_gemini_task])
  · exact claim_C10.2.2.2.2.2.2 "img.png" "vid.mp4" (FreepikGeminiError "boom")
      ⟨[], []⟩ rfl

/-- Concrete instance of C5 (the spec's Scenario 3): a 200 submission response
with no `task_id` raises the missing-id error immediately, and the driver
records no polling step. -/
theorem claim_C5_witness :
    _create_gemini_task ⟨200, "no id here", {}⟩ =
      .error (FreepikGeminiError (missingTaskIdMsg "no id here")) ∧
    (two_step_gemini_image
        { createImageResp := ⟨200, "no id here", {}⟩,
          imagePollResps := [],
          imageDownloadResp := ⟨200, "", []⟩,
          createVideoResp := ⟨200, "no id here", {}⟩,
          videoPollResps := [],
          videoDownloadResp := ⟨200, "", []⟩ }
        ["outputs", "img.png"] ["outputs", "vid.mp4"] 120 2 ⟨[], []⟩).2 =
      [Event.imageSubmit] := by
  have h3 := (claim_C5 ⟨200, "no id here", {}⟩).2.2.1 rfl rfl
  refine ⟨h3, ?_⟩
  exact (claim_C5 ⟨200, "no id here", {}⟩).2.2.2.2.2.2 _
    ["outputs", "img.png"] ["outputs", "vid.mp4"] 120 2 ⟨[], []⟩ _ rfl h3

/-- Concrete instance of C6 (the spec's Scenario 5): a 404 download response
raises the download error and leaves the empty filesystem untouched. -/
theorem claim_C6_witness :
    _download_file ⟨404, "not found", [[1]]⟩ ["outputs", "img.png"] ⟨[], []⟩ =
      (.error (FreepikGeminiError (downloadErrMsg 404 "not found")), ⟨[], []⟩) ∧
    (_download_file ⟨404, "not found", [[1]]⟩ ["outputs", "img.png"] ⟨[], []⟩).2.files =
      [] ∧
    (_download_file ⟨404, "not found", [[1]]⟩ ["outputs", "img.png"] ⟨[], []⟩).2.dirs =
      [] := by
  have h := claim_C6 ⟨404, "not found", [[1]]⟩ ["outputs", "img.png"] ⟨[], []⟩
    (by norm_num)
  exact ⟨h.1, h.2.1, h.2.2⟩

/-- Concrete instance of C7: a successful download writes the concatenation
of the non-empty chunks at the destination and creates the parent
directory. -/
theorem claim_C7_witness :
    ∃ fs2,
      _download_file ⟨200, "", [[1, 2], [], [3]]⟩ ["outputs", "img.png"] ⟨[], []⟩ =
        (.ok ["outputs", "img.png"], fs2) ∧
      lookupFile fs2.files ["outputs", "img.png"] = some [1, 2, 3] ∧
      ["outputs"] ∈ fs2.dirs := by
  obtain ⟨fs2, h1, h2, h3, h4, h5⟩ :=
    claim_C7 ⟨200, "", [[1, 2], [], [3]]⟩ ["outputs", "img.png"] ⟨[], []⟩ rfl
  refine ⟨fs2, h1, ?_, ?_⟩
  · exact h2
  · exact h3 ["outputs"] (by simp [initSegs])
